import Mathlib

/-!
Verification of the `editor-tool` repository.  The repository holds three
markdown improvement documents (`IMPROVEMENTS.md`,
`IMPROVEMENTS_COMPREHENSIVE.md`, `unnamed/part_000`) and one build-tool
configuration file (`vite.config.js`).  This file embeds the exported Vite
configuration, the repository file inventory, and the statements the
improvement documents make about the (absent) design-editor component, and
proves the specification claims about them.
-/

namespace EditorTool

/-- A named entry of the rollup `manualChunks` map in `vite.config.js`
(lines 33-36): the chunk name and the packages it bundles. -/
structure ManualChunk where
  chunkName : String
  packages : List String
  deriving DecidableEq

/-- The dev-server block of `vite.config.js` (lines 22-26).  The source
field `open` is rendered `openBrowser` because `open` is reserved. -/
structure ServerConfig where
  host : String
  port : Nat
  openBrowser : Bool
  deriving DecidableEq

/-- The `build` block of `vite.config.js` (lines 28-40): output directory,
sourcemap switch, the rollup manual chunks and the chunk-size warning
limit. -/
structure BuildConfig where
  outDir : String
  sourcemap : Bool
  manualChunks : List ManualChunk
  chunkSizeWarningLimit : Nat
  deriving DecidableEq

/-- The configuration object passed to `defineConfig` in `vite.config.js`
(lines 9-47).  `plugins` records the registered plugins by name (line 11
registers `react()`); `resolveAliasAt` records the single `resolve.alias`
entry mapping `@` to the `src` directory; `optimizeDepsInclude` records
the `optimizeDeps.include` list (line 45). -/
structure ViteConfig where
  plugins : List String
  resolveAliasAt : String
  server : ServerConfig
  build : BuildConfig
  optimizeDepsInclude : List String
  deriving DecidableEq

/-- The configuration exported by `vite.config.js`, field by field. -/
def viteConfig : ViteConfig where
  plugins := ["react"]
  resolveAliasAt := "src"
  server := { host := "localhost", port := 3000, openBrowser := true }
  build :=
    { outDir := "build"
      sourcemap := false
      manualChunks :=
        [ { chunkName := "react-vendor", packages := ["react", "react-dom"] }
        , { chunkName := "fabric-vendor", packages := ["fabric"] } ]
      chunkSizeWarningLimit := 1000 }
  optimizeDepsInclude := ["react", "react-dom", "fabric"]

/-- Classification of a provided repository file, read off its content:
`proseDoc` for markdown prose (improvement reports, recommendations),
`buildConfig` for build-tool configuration, `appSource` for application
source code (UI components, business logic).  No provided file is of kind
`appSource`. -/
inductive FileKind
  | proseDoc
  | buildConfig
  | appSource
  deriving DecidableEq

/-- A file of the repository source tree: its path, its content kind, and
whether it is an executable artifact (consumed and run by a tool rather
than read as prose). -/
structure RepoFile where
  path : String
  kind : FileKind
  executable : Bool
  deriving DecidableEq

/-- The four files of the repository source tree.  `IMPROVEMENTS.md` and
`IMPROVEMENTS_COMPREHENSIVE.md` are improvement reports,
`unnamed/part_000` is a further improvement-recommendation document, and
`vite.config.js` is the Vite build configuration, the only executable
artifact present. -/
def repoFiles : List RepoFile :=
  [ { path := "IMPROVEMENTS.md", kind := FileKind.proseDoc, executable := false }
  , { path := "IMPROVEMENTS_COMPREHENSIVE.md", kind := FileKind.proseDoc, executable := false }
  , { path := "unnamed/part_000", kind := FileKind.proseDoc, executable := false }
  , { path := "vite.config.js", kind := FileKind.buildConfig, executable := true } ]

/-- The kinds of algorithmically hard subsystem the specification rules
out: scheduler, protocol implementation, storage engine, caching engine,
concurrency-critical logic. -/
inductive Subsystem
  | scheduler
  | protocolImpl
  | storageEngine
  | cachingEngine
  | concurrencyLogic
  deriving DecidableEq

/-- The subsystems implemented by a provided file, read off its content:
the three markdown files contain prose recommendations and illustrative
snippets only, and `vite.config.js` is a declarative configuration object
with no algorithmic logic, so every provided file implements none of the
listed subsystems. -/
def implementedSubsystems (_f : RepoFile) : List Subsystem := []

/-- Implementation status of an operation or feature as stated by the
improvement documents. -/
inductive FeatureStatus
  | implementedOp
  | notImplemented
  deriving DecidableEq

/-- An operation of the design-editor component as described by the
improvement documents: its name, the status the documents give it, and
whether the documents describe it as state bookkeeping over the Fabric.js
object model (object manipulation, constraint enforcement, colour work on
canvas objects). -/
structure CoreOperation where
  opName : String
  status : FeatureStatus
  fabricObjectBookkeeping : Bool
  deriving DecidableEq

/-- The four hardest operations of the component together with the status
the documents give each one: object manipulation and transforms
(`IMPROVEMENTS_COMPREHENSIVE.md` line 46), boundary constraint enforcement
(line 48) and colour extraction and replacement (line 57) are current
operations of the component, while the undo/redo system is "Currently not
implemented" (`IMPROVEMENTS.md`, Missing Features, lines 171-177) with
current status "Not implemented" (`IMPROVEMENTS_COMPREHENSIVE.md`, section
4.1, lines 313-319). -/
def describedCoreOperations : List CoreOperation :=
  [ { opName := "object transforms", status := FeatureStatus.implementedOp
      fabricObjectBookkeeping := true }
  , { opName := "boundary constraints", status := FeatureStatus.implementedOp
      fabricObjectBookkeeping := true }
  , { opName := "color extraction", status := FeatureStatus.implementedOp
      fabricObjectBookkeeping := true }
  , { opName := "undo/redo", status := FeatureStatus.notImplemented
      fabricObjectBookkeeping := true } ]

/-- The names of the operations the documents state the component
currently performs: the described operations whose status is
`implementedOp`. -/
def performedOperationNames : List String :=
  (describedCoreOperations.filter
    (fun op => op.status == FeatureStatus.implementedOp)).map
    (fun op => op.opName)

/-- Documentation facts about the design-editor component:
`unnamed/part_000` lines 7-8 state that `DesignEditor.jsx` is
approximately 4,700 lines long; `IMPROVEMENTS.md` lines 58-64 state the
same line count, call the structure monolithic, and say it needs to be
broken down into smaller, focused components; `unnamed/part_000` line 10
records that it wraps the Fabric.js canvas library. -/
structure ComponentDoc where
  componentName : String
  approxLines : Nat
  wrapsCanvasLibrary : String
  monolithic : Bool
  flaggedForDecomposition : Bool
  deriving DecidableEq

/-- The documented facts about `DesignEditor.jsx`. -/
def designEditorDoc : ComponentDoc where
  componentName := "DesignEditor.jsx"
  approxLines := 4700
  wrapsCanvasLibrary := "fabric"
  monolithic := true
  flaggedForDecomposition := true

/-- Modelled from the spec: `DesignEditor.jsx`, the component holding the
per-view canvases, is not among the provided files.  The glossary defines
a view as one of the four garment faces (front/back/left/right) a design
can target, each with its own canvas instance, and
`IMPROVEMENTS_COMPREHENSIVE.md` line 121 records multiple canvas instances
(front/back/left/right). -/
inductive View
  | front
  | back
  | left
  | right
  deriving DecidableEq

/-- Modelled from the spec: each view has its own canvas instance,
identified here by an index. -/
def canvasInstance : View → Nat
  | View.front => 0
  | View.back => 1
  | View.left => 2
  | View.right => 3

/-- Modelled from the spec: a design targets a view of the garment. -/
structure Design where
  targetView : View

/-- An external interface as named by the improvement documents: its
name, the operations it carries, and whether the documents call for it to
be wrapped with validation and with retry. -/
structure ExternalInterfaceDoc where
  ifaceName : String
  operations : List String
  validationCalledFor : Bool
  retryCalledFor : Bool
  deriving DecidableEq

/-- The WooCommerce e-commerce API as named by the documents:
`IMPROVEMENTS.md` lines 36-49 call for validation (API responses not
validated, rate limiting needed) and `IMPROVEMENTS.md` line 120 together
with `IMPROVEMENTS_COMPREHENSIVE.md` section 9.2 call for retry mechanisms
for failed requests. -/
def wooCommerceApiDoc : ExternalInterfaceDoc where
  ifaceName := "woocommerce-api"
  operations := ["product catalog lookup", "order submission"]
  validationCalledFor := true
  retryCalledFor := true

/-- File-upload handling as named by the documents: `IMPROVEMENTS.md` line
46 (no validation for file uploads) and `IMPROVEMENTS_COMPREHENSIVE.md`
line 533 call for validation; the documents name no retry wrapping for
uploads (the retry call in the documents is stated for API requests, under
API Error Handling). -/
def fileUploadDoc : ExternalInterfaceDoc where
  ifaceName := "file-upload"
  operations := ["image upload"]
  validationCalledFor := true
  retryCalledFor := false

/-- The external interfaces of substance named by the documents: exactly
the e-commerce API and file-upload handling. -/
def documentedExternalInterfaces : List ExternalInterfaceDoc :=
  [wooCommerceApiDoc, fileUploadDoc]

/-- A defensive error-handling measure called for by the documents: its
name and whether it constitutes a bespoke failure-recovery protocol.  The
documents recommend a stock React error boundary class
(`IMPROVEMENTS_COMPREHENSIVE.md` section 9.1), stock per-status API error
handling with retries (section 9.2 and `IMPROVEMENTS.md` line 120), and
input validation (`IMPROVEMENTS.md` lines 45-49): all standard front-end
measures, none a bespoke recovery protocol. -/
structure ErrorMeasureDoc where
  measureName : String
  bespokeFailureRecoveryProtocol : Bool
  deriving DecidableEq

/-- The defensive measures the documents call for. -/
def calledForErrorMeasures : List ErrorMeasureDoc :=
  [ { measureName := "error boundaries", bespokeFailureRecoveryProtocol := false }
  , { measureName := "api retry", bespokeFailureRecoveryProtocol := false }
  , { measureName := "input validation", bespokeFailureRecoveryProtocol := false } ]

end EditorTool

namespace EditorTool

/-- Claim C1: every file in the repository source tree is either prose
documentation or a build-tool configuration file; the only executable
artifact present is the Vite build configuration `vite.config.js`; and no
application source code file exists. -/
theorem repo_files_prose_or_build_config :
    repoFiles.all
      (fun f => f.kind == FileKind.proseDoc || f.kind == FileKind.buildConfig) = true ∧
    repoFiles.all (fun f => f.executable == (f.path == "vite.config.js")) = true ∧
    repoFiles.all (fun f => !(f.kind == FileKind.appSource)) = true := by
  decide

/-- Claim C2: no provided file implements a scheduler, a protocol, a
storage or caching engine, or concurrency-critical logic, and the set of
files carrying such an algorithmic core is empty. -/
theorem no_hard_subsystem_in_any_file :
    repoFiles.all (fun f => (implementedSubsystems f).isEmpty) = true ∧
    repoFiles.filter (fun f => !(implementedSubsystems f).isEmpty) = [] := by
  decide

/-- Claim C3 counterexample: the claim states that undo/redo is among the
operations the core performs, but the documents give the undo/redo system
the status not-implemented, so its name is not among the performed
operations. -/
theorem undo_redo_not_performed :
    ¬ ("undo/redo" ∈ performedOperationNames) := by
  decide

/-- Claim C3 (amended): object transforms, boundary constraints and color
extraction are the operations the documents state the component performs,
every described operation is state bookkeeping over the graphics library
object model, and undo/redo appears among the described operations only
with status not-implemented (a missing feature). -/
theorem core_operations_amended :
    performedOperationNames =
      ["object transforms", "boundary constraints", "color extraction"] ∧
    describedCoreOperations.all (fun op => op.fabricObjectBookkeeping) = true ∧
    { opName := "undo/redo", status := FeatureStatus.notImplemented,
      fabricObjectBookkeeping := true } ∈ describedCoreOperations := by
  decide

/-- Claim C4: the described core is a single monolithic UI component of
approximately 4,700 lines wrapping the third-party canvas library
Fabric.js, and the documentation flags it for decomposition into smaller
units. -/
theorem design_editor_monolith_flagged :
    designEditorDoc.approxLines = 4700 ∧
    designEditorDoc.wrapsCanvasLibrary = "fabric" ∧
    designEditorDoc.monolithic = true ∧
    designEditorDoc.flaggedForDecomposition = true := by
  decide

/-- Claim C5: every design targets exactly one of the four garment-face
views, the four views are all the views there are, and each view has its
own canvas instance distinct from the canvas instances of the other three
views. -/
theorem views_and_canvases :
    (∀ d : Design, ∃! v : View, d.targetView = v) ∧
    (∀ v : View, v ∈ [View.front, View.back, View.left, View.right]) ∧
    List.Pairwise (fun v w => canvasInstance v ≠ canvasInstance w)
      [View.front, View.back, View.left, View.right] := by
  refine ⟨fun d => ⟨d.targetView, rfl, fun y h => h.symm⟩, fun v => ?_, ?_⟩
  · cases v <;> simp
  · decide

/-- Claim C5 witness: the claim instantiated at the design targeting the
front view. -/
theorem views_and_canvases_witness :
    ∃! v : View, (Design.mk View.front).targetView = v :=
  views_and_canvases.1 (Design.mk View.front)

/-- Claim C6 counterexample: the claim states that both named external
interfaces are to be wrapped with validation and retry, but the documented
file-upload interface has no retry wrapping called for. -/
theorem file_upload_no_retry :
    fileUploadDoc ∈ documentedExternalInterfaces ∧
    fileUploadDoc.retryCalledFor = false := by
  decide

/-- Claim C6 (amended): the only external interfaces of substance named by
the documents are the e-commerce API (product catalog lookups and order
submission) and file-upload handling — exactly two — both named as glue to
be wrapped with validation, and the e-commerce API additionally with
retry. -/
theorem external_interfaces_amended :
    documentedExternalInterfaces = [wooCommerceApiDoc, fileUploadDoc] ∧
    documentedExternalInterfaces.length = 2 ∧
    wooCommerceApiDoc.operations = ["product catalog lookup", "order submission"] ∧
    documentedExternalInterfaces.all (fun i => i.validationCalledFor) = true ∧
    wooCommerceApiDoc.retryCalledFor = true := by
  decide

/-- Claim C7: the documents call for exactly the standard defensive
measures error boundaries, API retry and input validation, and none of the
called-for measures constitutes a bespoke failure-recovery protocol. -/
theorem error_measures_standard :
    calledForErrorMeasures.map (fun m => m.measureName) =
      ["error boundaries", "api retry", "input validation"] ∧
    calledForErrorMeasures.all
      (fun m => !m.bespokeFailureRecoveryProtocol) = true := by
  decide

/-- Claim C9: the exported Vite configuration sets the build output
directory to build, disables sourcemaps, defines exactly the two manual
chunks react-vendor (react, react-dom) and fabric-vendor (fabric), and
every package named in a manual chunk also appears in the
optimizeDeps.include list. -/
theorem vite_build_config_facts :
    viteConfig.build.outDir = "build" ∧
    viteConfig.build.sourcemap = false ∧
    viteConfig.build.manualChunks =
      [ { chunkName := "react-vendor", packages := ["react", "react-dom"] }
      , { chunkName := "fabric-vendor", packages := ["fabric"] } ] ∧
    viteConfig.build.manualChunks.all
      (fun c => c.packages.all
        (fun p => viteConfig.optimizeDepsInclude.contains p)) = true := by
  decide

/-- Claim C10: the exported Vite configuration registers exactly one
plugin, the React plugin, and its dev server binds to host localhost on
port 3000 with automatic browser opening enabled. -/
theorem vite_plugins_and_server_facts :
    viteConfig.plugins = ["react"] ∧
    viteConfig.plugins.length = 1 ∧
    viteConfig.server.host = "localhost" ∧
    viteConfig.server.port = 3000 ∧
    viteConfig.server.openBrowser = true := by
  decide

end EditorTool
